import Mathlib

/-!
Verification of the online ticket reservation system.

The repository holds two variants of the same in-memory booking ledger:
a console application (class `ReservationSystem` in
`Online Train Booking.py`, embedded below in namespace `Console`) and a
Flask web application (class `ReservationSystem` in `index.py`, embedded
below in namespace `Web`).  Both keep a dict of trips, a dict of
bookings and two id counters.

Embedding conventions:
* Python's insertion-ordered dicts keyed by `trip_id` / `booking_id` are
  lists; `dict.get` is `List.find?` on the key field, `d[k] = v` is
  `dictInsert…` (replace in place when the key is present, append when
  not), and mutation of a looked-up object is `update…` (rewrite the
  entries carrying that key).  A Python dict never holds two entries
  with one key, which for the list model is the `Nodup` facts carried by
  `Inv` below.
* `price_per_seat` is a Python float, but every price in the program is
  the integer-valued seed constant (450.0, 500.0, 1200.0, 450.0, 1800.0
  in the console file, the same numbers as ints in `index.py`) and the
  only arithmetic on it is `num_seats * price` with `num_seats ≤ 50`,
  which is exact in binary floating point at these magnitudes; prices
  and fares are therefore modeled as `Int`.
* The console functions print messages; a function's printed lines are
  returned alongside its value as a `List String` (the caller of the
  Python function receives only the `Option Booking` / `Bool`
  component).
* `int(raw_string)` in the web variant either yields an integer or
  raises `ValueError`; the raw-argument entry points return
  `Except String …`, with `Except.error` standing for the raised
  exception.
-/

structure Trip where
  trip_id : Int
  source : String
  destination : String
  date : String
  time : String
  total_seats : Int
  seats_available : Int
  price_per_seat : Int
deriving DecidableEq

structure Booking where
  booking_id : Int
  passenger_name : String
  passenger_age : Int
  trip_id : Int
  num_seats : Int
  total_fare : Int
  status : String
deriving DecidableEq

/-- The fields of either `ReservationSystem.__init__`. -/
structure RSState where
  trips : List Trip
  bookings : List Booking
  next_trip_id : Int
  next_booking_id : Int
deriving DecidableEq

/-- `self.trips.get(tid)`. -/
def findTrip (l : List Trip) (tid : Int) : Option Trip :=
  l.find? (fun t => t.trip_id == tid)

/-- `self.bookings.get(bid)`. -/
def findBooking (l : List Booking) (bid : Int) : Option Booking :=
  l.find? (fun b => b.booking_id == bid)

/-- In-place mutation of the trip object stored under key `tid`. -/
def updateTrip (l : List Trip) (tid : Int) (f : Trip → Trip) : List Trip :=
  l.map (fun t => if t.trip_id == tid then f t else t)

/-- In-place mutation of the booking object stored under key `bid`. -/
def updateBooking (l : List Booking) (bid : Int) (f : Booking → Booking) : List Booking :=
  l.map (fun b => if b.booking_id == bid then f b else b)

/-- `self.trips[t.trip_id] = t` on the insertion-ordered dict. -/
def dictInsertTrip (l : List Trip) (t : Trip) : List Trip :=
  if l.any (fun x => x.trip_id == t.trip_id) then
    updateTrip l t.trip_id (fun _ => t)
  else
    l ++ [t]

/-- `self.bookings[b.booking_id] = b` on the insertion-ordered dict. -/
def dictInsertBooking (l : List Booking) (b : Booking) : List Booking :=
  if l.any (fun x => x.booking_id == b.booking_id) then
    updateBooking l b.booking_id (fun _ => b)
  else
    l ++ [b]

/-- Python's `str.lower()`: lower-case every character (the catalog and
queries are ASCII, where `Char.toLower` agrees with Python). -/
def pyLower (s : String) : String := ⟨s.data.map Char.toLower⟩

/-- The empty ledger both `__init__` bodies build before seeding. -/
def emptyRS : RSState :=
  { trips := [], bookings := [], next_trip_id := 1, next_booking_id := 1 }

namespace Console

/-- `ReservationSystem._add_trip` of the console file. -/
def _add_trip (s : RSState) (source destination date time : String)
    (total_seats : Int) (price_per_seat : Int) : RSState :=
  let trip : Trip :=
    { trip_id := s.next_trip_id, source := source, destination := destination,
      date := date, time := time, total_seats := total_seats,
      seats_available := total_seats, price_per_seat := price_per_seat }
  { s with trips := dictInsertTrip s.trips trip, next_trip_id := s.next_trip_id + 1 }

/-- `ReservationSystem._load_sample_data` of the console file. -/
def _load_sample_data (s : RSState) : RSState :=
  _add_trip (_add_trip (_add_trip (_add_trip (_add_trip s
    "Bhopal" "Indore" "2025-12-10" "09:00" 40 450)
    "Bhopal" "Indore" "2025-12-10" "18:00" 40 500)
    "Bhopal" "Delhi" "2025-12-11" "20:00" 50 1200)
    "Indore" "Bhopal" "2025-12-11" "07:30" 40 450)
    "Bhopal" "Mumbai" "2025-12-12" "21:00" 50 1800

/-- `ReservationSystem.list_all_trips` of the console file. -/
def list_all_trips (s : RSState) : List Trip := s.trips

/-- `ReservationSystem.search_trips` of the console file. -/
def search_trips (s : RSState) (source destination date : String) : List Trip :=
  s.trips.filter (fun trip =>
    pyLower trip.source == pyLower source &&
    pyLower trip.destination == pyLower destination &&
    trip.date == date)

/-- `ReservationSystem.book_ticket` of the console file.  The first
result component is the returned `Optional[Booking]`, the second the
lines the function prints. -/
def book_ticket (s : RSState) (passenger_name : String) (passenger_age : Int)
    (trip_id : Int) (num_seats : Int) : (Option Booking × List String) × RSState :=
  match findTrip s.trips trip_id with
  | none => ((none, ["Invalid trip ID."]), s)
  | some trip =>
    if num_seats ≤ 0 then
      ((none, ["Number of seats must be at least 1."]), s)
    else if trip.seats_available < num_seats then
      ((none, ["Only " ++ toString trip.seats_available ++
        " seats available on this trip. Requested: " ++ toString num_seats]), s)
    else
      let total_fare := num_seats * trip.price_per_seat
      let booking : Booking :=
        { booking_id := s.next_booking_id, passenger_name := passenger_name,
          passenger_age := passenger_age, trip_id := trip_id,
          num_seats := num_seats, total_fare := total_fare, status := "CONFIRMED" }
      ((some booking, []),
        { s with
          bookings := dictInsertBooking s.bookings booking,
          next_booking_id := s.next_booking_id + 1,
          trips := updateTrip s.trips trip_id
            (fun t => { t with seats_available := t.seats_available - num_seats }) })

/-- `ReservationSystem.get_booking` of the console file. -/
def get_booking (s : RSState) (booking_id : Int) : Option Booking :=
  findBooking s.bookings booking_id

/-- `ReservationSystem.cancel_booking` of the console file.  A `Trip`
dataclass instance is always truthy, so Python's `if trip:` is a
`None` test. -/
def cancel_booking (s : RSState) (booking_id : Int) : (Bool × List String) × RSState :=
  match findBooking s.bookings booking_id with
  | none => ((false, ["Invalid booking ID."]), s)
  | some booking =>
    if booking.status = "CANCELLED" then
      ((false, ["Booking is already cancelled."]), s)
    else
      ((true, []),
        { s with
          trips :=
            match findTrip s.trips booking.trip_id with
            | some _ => updateTrip s.trips booking.trip_id
                (fun t => { t with seats_available := t.seats_available + booking.num_seats })
            | none => s.trips,
          bookings := updateBooking s.bookings booking_id
            (fun b => { b with status := "CANCELLED" }) })

/-- `ReservationSystem.list_all_bookings` of the console file. -/
def list_all_bookings (s : RSState) : List Booking := s.bookings

end Console

/-- The state `ReservationSystem()` of the console file constructs. -/
def consoleInit : RSState := Console._load_sample_data emptyRS

namespace Web

/-- `ReservationSystem._add_trip` of `index.py`. -/
def _add_trip (s : RSState) (source destination date time : String)
    (seats : Int) (price : Int) : RSState :=
  let trip : Trip :=
    { trip_id := s.next_trip_id, source := source, destination := destination,
      date := date, time := time, total_seats := seats,
      seats_available := seats, price_per_seat := price }
  { s with trips := dictInsertTrip s.trips trip, next_trip_id := s.next_trip_id + 1 }

/-- `ReservationSystem._load_sample_data` of `index.py`. -/
def _load_sample_data (s : RSState) : RSState :=
  _add_trip (_add_trip (_add_trip (_add_trip (_add_trip s
    "Bhopal" "Indore" "2025-12-10" "09:00" 40 450)
    "Bhopal" "Indore" "2025-12-10" "18:00" 40 500)
    "Bhopal" "Delhi" "2025-12-11" "20:00" 50 1200)
    "Indore" "Bhopal" "2025-12-11" "07:30" 40 450)
    "Bhopal" "Mumbai" "2025-12-12" "21:00" 50 1800

/-- `ReservationSystem.list_all_trips` of `index.py`. -/
def list_all_trips (s : RSState) : List Trip := s.trips

/-- `ReservationSystem.book_ticket` of `index.py`, after the `int(…)`
conversions (its behaviour on arguments that are already integers,
`int` being the identity on `int`). -/
def book_ticket (s : RSState) (name : String) (age : Int) (trip_id : Int)
    (seats : Int) : Option Booking × RSState :=
  match findTrip s.trips trip_id with
  | none => (none, s)
  | some trip =>
    if seats ≤ 0 ∨ trip.seats_available < seats then (none, s)
    else
      let fare := seats * trip.price_per_seat
      let booking : Booking :=
        { booking_id := s.next_booking_id, passenger_name := name,
          passenger_age := age, trip_id := trip.trip_id,
          num_seats := seats, total_fare := fare, status := "CONFIRMED" }
      (some booking,
        { s with
          bookings := dictInsertBooking s.bookings booking,
          next_booking_id := s.next_booking_id + 1,
          trips := updateTrip s.trips trip.trip_id
            (fun t => { t with seats_available := t.seats_available - seats }) })

/-- `ReservationSystem.list_all_bookings` of `index.py`. -/
def list_all_bookings (s : RSState) : List Booking := s.bookings

/-- `ReservationSystem.cancel_booking` of `index.py`, after the
`int(booking_id)` conversion.  `not booking` on an `Optional[Booking]`
is a `None` test (a `Booking` dataclass instance is always truthy). -/
def cancel_booking (s : RSState) (booking_id : Int) : Bool × RSState :=
  match findBooking s.bookings booking_id with
  | none => (false, s)
  | some booking =>
    if booking.status = "CANCELLED" then (false, s)
    else
      (true,
        { s with
          trips :=
            match findTrip s.trips booking.trip_id with
            | some _ => updateTrip s.trips booking.trip_id
                (fun t => { t with seats_available := t.seats_available + booking.num_seats })
            | none => s.trips,
          bookings := updateBooking s.bookings booking_id
            (fun b => { b with status := "CANCELLED" }) })

end Web

/-- The state `ReservationSystem()` of `index.py` constructs (the module
global `system`). -/
def webInit : RSState := Web._load_sample_data emptyRS

/-- Python's `int(string)`: optional sign followed by decimal digits
yields the integer, anything else raises `ValueError`.  (Python also
skips surrounding whitespace and allows digit-group underscores; the
arguments reasoned about below contain neither.) -/
def pyInt? (str : String) : Option Int :=
  let sign : Bool :=
    match str.data with
    | '-' :: _ => true
    | _ => false
  let digits : List Char :=
    match str.data with
    | '-' :: cs => cs
    | '+' :: cs => cs
    | cs => cs
  if digits ≠ [] ∧ digits.all Char.isDigit then
    let n : Nat := digits.foldl (fun acc c => acc * 10 + (c.toNat - 48)) 0
    some (if sign then -(n : Int) else (n : Int))
  else
    none

namespace Web

/-- `ReservationSystem.book_ticket` of `index.py` on the raw form
strings the `/book` route passes in: `int(trip_id)` runs first, the
trip lookup next, `int(seats)` after the lookup succeeds, and
`int(age)` only when the guards pass, each conversion raising
`ValueError` (`Except.error`) on a non-integer string. -/
def book_ticket_raw (s : RSState) (name age trip_id seats : String) :
    Except String (Option Booking × RSState) :=
  match pyInt? trip_id with
  | none => Except.error "ValueError"
  | some tid =>
    match findTrip s.trips tid with
    | none => Except.ok (none, s)
    | some trip =>
      match pyInt? seats with
      | none => Except.error "ValueError"
      | some n =>
        if n ≤ 0 ∨ trip.seats_available < n then Except.ok (none, s)
        else
          match pyInt? age with
          | none => Except.error "ValueError"
          | some a =>
            let fare := n * trip.price_per_seat
            let booking : Booking :=
              { booking_id := s.next_booking_id, passenger_name := name,
                passenger_age := a, trip_id := trip.trip_id,
                num_seats := n, total_fare := fare, status := "CONFIRMED" }
            Except.ok (some booking,
              { s with
                bookings := dictInsertBooking s.bookings booking,
                next_booking_id := s.next_booking_id + 1,
                trips := updateTrip s.trips trip.trip_id
                  (fun t => { t with seats_available := t.seats_available - n }) })

/-- `ReservationSystem.cancel_booking` of `index.py` on the raw form
string the `/cancel` route passes in: `int(booking_id)` raises
`ValueError` on a non-integer string, then the integer body runs. -/
def cancel_booking_raw (s : RSState) (booking_id : String) :
    Except String (Bool × RSState) :=
  match pyInt? booking_id with
  | none => Except.error "ValueError"
  | some bid => Except.ok (cancel_booking s bid)

end Web

/-- `sum(b.num_seats for b in bookings if b.trip_id == tid and
b.status == "CONFIRMED")`. -/
def confirmedSeats : List Booking → Int → Int
  | [], _ => 0
  | b :: bs, tid =>
    (if b.trip_id = tid ∧ b.status = "CONFIRMED" then b.num_seats else 0) +
      confirmedSeats bs tid

/-- Seat conservation: every trip's free seats plus its confirmed booked
seats equal its capacity. -/
def Conserves (s : RSState) : Prop :=
  ∀ t ∈ s.trips, t.seats_available + confirmedSeats s.bookings t.trip_id = t.total_seats

instance (s : RSState) : Decidable (Conserves s) := by
  unfold Conserves; infer_instance

/-- The state invariant the reachable ledger states satisfy: the two
dict key sets are duplicate-free (a Python dict guarantee), booking ids
stay below the id counter, every booking references a seeded trip,
statuses are the two-valued enum, and seats are conserved. -/
def RSInv (s : RSState) : Prop :=
  (s.trips.map Trip.trip_id).Nodup ∧
  (s.bookings.map Booking.booking_id).Nodup ∧
  (∀ b ∈ s.bookings, b.booking_id < s.next_booking_id) ∧
  (∀ b ∈ s.bookings, b.trip_id ∈ s.trips.map Trip.trip_id) ∧
  (∀ b ∈ s.bookings, b.status = "CONFIRMED" ∨ b.status = "CANCELLED") ∧
  Conserves s

instance (s : RSState) : Decidable (RSInv s) := by
  unfold RSInv; infer_instance

/-- A ledger operation of the console system's mutating interface. -/
inductive Op where
  | book (name : String) (age : Int) (trip_id : Int) (seats : Int)
  | cancel (booking_id : Int)

/-- The state after one console operation. -/
def applyOp (s : RSState) : Op → RSState
  | Op.book n a t k => (Console.book_ticket s n a t k).2
  | Op.cancel b => (Console.cancel_booking s b).2

/-- The state after a sequence of console operations. -/
def run (s : RSState) : List Op → RSState
  | [] => s
  | op :: ops => run (applyOp s op) ops

/-- The seats_available of the trip stored under `tid`. -/
def availOf (s : RSState) (tid : Int) : Option Int :=
  (findTrip s.trips tid).map Trip.seats_available

/-- An operation of the interface both variants expose (with the web
variant's string arguments already converted to the integers the claim
ranges over). -/
inductive WOp where
  | listTrips
  | book (name : String) (age : Int) (trip_id : Int) (seats : Int)
  | cancel (booking_id : Int)
  | listBookings

/-- An operation's returned value, in either variant. -/
inductive WRes where
  | trips (l : List Trip)
  | booked (b : Option Booking)
  | cancelled (ok : Bool)
  | bookings (l : List Booking)
deriving DecidableEq

/-- One operation of the console system: its returned value (for
`book_ticket` the `Optional[Booking]`, the printed lines being console
output rather than a result) and the next state. -/
def consoleStep (s : RSState) : WOp → WRes × RSState
  | WOp.listTrips => (WRes.trips (Console.list_all_trips s), s)
  | WOp.book n a t k =>
    let r := Console.book_ticket s n a t k
    (WRes.booked r.1.1, r.2)
  | WOp.cancel b =>
    let r := Console.cancel_booking s b
    (WRes.cancelled r.1.1, r.2)
  | WOp.listBookings => (WRes.bookings (Console.list_all_bookings s), s)

/-- One operation of the web system: its returned value and the next
state. -/
def webStep (s : RSState) : WOp → WRes × RSState
  | WOp.listTrips => (WRes.trips (Web.list_all_trips s), s)
  | WOp.book n a t k =>
    let r := Web.book_ticket s n a t k
    (WRes.booked r.1, r.2)
  | WOp.cancel b =>
    let r := Web.cancel_booking s b
    (WRes.cancelled r.1, r.2)
  | WOp.listBookings => (WRes.bookings (Web.list_all_bookings s), s)

/-- The results and final state of a console session. -/
def consoleRun (s : RSState) : List WOp → List WRes × RSState
  | [] => ([], s)
  | op :: ops =>
    let r := consoleStep s op
    let rest := consoleRun r.2 ops
    (r.1 :: rest.1, rest.2)

/-- The results and final state of a web session. -/
def webRun (s : RSState) : List WOp → List WRes × RSState
  | [] => ([], s)
  | op :: ops =>
    let r := webStep s op
    let rest := webRun r.2 ops
    (r.1 :: rest.1, rest.2)

/-- The first seeded trip (console numbers; trip 1 of the catalog). -/
def trip1 : Trip :=
  { trip_id := 1, source := "Bhopal", destination := "Indore",
    date := "2025-12-10", time := "09:00", total_seats := 40,
    seats_available := 40, price_per_seat := 450 }

/-- The second seeded trip. -/
def trip2 : Trip :=
  { trip_id := 2, source := "Bhopal", destination := "Indore",
    date := "2025-12-10", time := "18:00", total_seats := 40,
    seats_available := 40, price_per_seat := 500 }

/-- The booking of the spec's scenario: `bookTicket("Asha", 30, 1, 5)`
on the seeded state. -/
def bk0 : Booking :=
  { booking_id := 1, passenger_name := "Asha", passenger_age := 30,
    trip_id := 1, num_seats := 5, total_fare := 2250, status := "CONFIRMED" }

/-! ### Dictionary lemmas -/

theorem findTrip_cons (x : Trip) (xs : List Trip) (tid : Int) :
    findTrip (x :: xs) tid = if x.trip_id = tid then some x else findTrip xs tid := by
  unfold findTrip
  by_cases h : x.trip_id = tid
  · rw [List.find?_cons_of_pos _ (by simpa using h)]
    simp [h]
  · rw [List.find?_cons_of_neg _ (by simpa using h)]
    simp [h]

theorem findBooking_cons (x : Booking) (xs : List Booking) (bid : Int) :
    findBooking (x :: xs) bid = if x.booking_id = bid then some x else findBooking xs bid := by
  unfold findBooking
  by_cases h : x.booking_id = bid
  · rw [List.find?_cons_of_pos _ (by simpa using h)]
    simp [h]
  · rw [List.find?_cons_of_neg _ (by simpa using h)]
    simp [h]

theorem updateTrip_cons (x : Trip) (xs : List Trip) (tid : Int) (f : Trip → Trip) :
    updateTrip (x :: xs) tid f =
      (if x.trip_id = tid then f x else x) :: updateTrip xs tid f := by
  unfold updateTrip
  by_cases h : x.trip_id = tid <;> simp [h]

theorem updateBooking_cons (x : Booking) (xs : List Booking) (bid : Int) (f : Booking → Booking) :
    updateBooking (x :: xs) bid f =
      (if x.booking_id = bid then f x else x) :: updateBooking xs bid f := by
  unfold updateBooking
  by_cases h : x.booking_id = bid <;> simp [h]

theorem findTrip_prop {l : List Trip} {tid : Int} {t : Trip}
    (h : findTrip l tid = some t) : t ∈ l ∧ t.trip_id = tid := by
  refine ⟨List.mem_of_find?_eq_some h, ?_⟩
  have := List.find?_some h
  simpa using this

theorem findBooking_prop {l : List Booking} {bid : Int} {b : Booking}
    (h : findBooking l bid = some b) : b ∈ l ∧ b.booking_id = bid := by
  refine ⟨List.mem_of_find?_eq_some h, ?_⟩
  have := List.find?_some h
  simpa using this

theorem findTrip_isSome_of_mem {l : List Trip} {tid : Int}
    (h : tid ∈ l.map Trip.trip_id) :
    ∃ t, findTrip l tid = some t ∧ t.trip_id = tid := by
  induction l with
  | nil => simp at h
  | cons x xs ih =>
    rw [findTrip_cons]
    by_cases hx : x.trip_id = tid
    · exact ⟨x, by simp [hx], hx⟩
    · simp only [List.map_cons, List.mem_cons] at h
      rcases h with h | h
    
      · exact absurd h.symm hx
      · simpa [hx] using ih h

theorem mem_updateTrip {l : List Trip} {tid : Int} {f : Trip → Trip} {t' : Trip}
    (h : t' ∈ updateTrip l tid f) :
    (∃ t, t ∈ l ∧ t.trip_id = tid ∧ t' = f t) ∨ (t' ∈ l ∧ ¬ t'.trip_id = tid) := by
  unfold updateTrip at h
  rcases List.mem_map.mp h with ⟨t, htl, hft⟩
  by_cases hid : t.trip_id = tid
  · exact Or.inl ⟨t, htl, hid, by simp [hid] at hft; exact hft.symm⟩
  · simp [hid] at hft
    exact Or.inr ⟨hft ▸ htl, hft ▸ hid⟩

theorem mem_updateBooking {l : List Booking} {bid : Int} {f : Booking → Booking} {b' : Booking}
    (h : b' ∈ updateBooking l bid f) :
    (∃ b, b ∈ l ∧ b.booking_id = bid ∧ b' = f b) ∨ (b' ∈ l ∧ ¬ b'.booking_id = bid) := by
  unfold updateBooking at h
  rcases List.mem_map.mp h with ⟨b, hbl, hfb⟩
  by_cases hid : b.booking_id = bid
  · exact Or.inl ⟨b, hbl, hid, by simp [hid] at hfb; exact hfb.symm⟩
  · simp [hid] at hfb
    exact Or.inr ⟨hfb ▸ hbl, hfb ▸ hid⟩

theorem updateTrip_map_trip_id {l : List Trip} {tid : Int} {f : Trip → Trip}
    (hf : ∀ t, (f t).trip_id = t.trip_id) :
    (updateTrip l tid f).map Trip.trip_id = l.map Trip.trip_id := by
  induction l with
  | nil => rfl
  | cons x xs ih =>
    rw [updateTrip_cons]
    by_cases h : x.trip_id = tid <;> simp [h, hf, ih]

theorem updateBooking_map_booking_id {l : List Booking} {bid : Int} {f : Booking → Booking}
    (hf : ∀ b, (f b).booking_id = b.booking_id) :
    (updateBooking l bid f).map Booking.booking_id = l.map Booking.booking_id := by
  induction l with
  | nil => rfl
  | cons x xs ih =>
    rw [updateBooking_cons]
    by_cases h : x.booking_id = bid <;> simp [h, hf, ih]

theorem findTrip_updateTrip {l : List Trip} (tid : Int) (f : Trip → Trip)
    (hf : ∀ t, (f t).trip_id = t.trip_id) :
    findTrip (updateTrip l tid f) tid = (findTrip l tid).map f := by
  induction l with
  | nil => rfl
  | cons x xs ih =>
    rw [updateTrip_cons]
    by_cases h : x.trip_id = tid
    · rw [findTrip_cons, findTrip_cons]
      simp [h, hf]
    · rw [findTrip_cons, findTrip_cons]
      simp [h, ih]

theorem updateBooking_of_no_key {l : List Booking} {bid : Int} (f : Booking → Booking)
    (h : ∀ b ∈ l, ¬ b.booking_id = bid) : updateBooking l bid f = l := by
  induction l with
  | nil => rfl
  | cons x xs ih =>
    rw [updateBooking_cons]
    have hx := h x (by simp)
    simp only [if_neg hx]
    rw [ih (fun b hb => h b (by simp [hb]))]

theorem updateTrip_updateTrip {l : List Trip} (tid : Int) (f g : Trip → Trip)
    (hf : ∀ t, (f t).trip_id = t.trip_id)
    (hfg : ∀ t, t.trip_id = tid → g (f t) = t) :
    updateTrip (updateTrip l tid f) tid g = l := by
  induction l with
  | nil => rfl
  | cons x xs ih =>
    rw [updateTrip_cons, updateTrip_cons]
    by_cases h : x.trip_id = tid
    · simp only [if_pos h]
      rw [if_pos (by rw [hf]; exact h)]
      rw [hfg x h, ih]
    · simp only [if_neg h]
      rw [ih]

theorem dictInsertBooking_fresh {l : List Booking} {b : Booking}
    (h : ∀ x ∈ l, ¬ x.booking_id = b.booking_id) :
    dictInsertBooking l b = l ++ [b] := by
  unfold dictInsertBooking
  have : l.any (fun x => x.booking_id == b.booking_id) = false := by
    rw [List.any_eq_false]
    intro x hx
    simpa using h x hx
  rw [this]
  simp

theorem findBooking_append_right {l : List Booking} {b : Booking}
    (h : ∀ x ∈ l, ¬ x.booking_id = b.booking_id) :
    findBooking (l ++ [b]) b.booking_id = some b := by
  induction l with
  | nil => simp [findBooking_cons]
  | cons x xs ih =>
    rw [List.cons_append, findBooking_cons]
    rw [if_neg (h x (by simp))]
    exact ih (fun y hy => h y (by simp [hy]))

theorem findBooking_updateBooking_const {l : List Booking} {b : Booking}
    (h : ∃ x ∈ l, x.booking_id = b.booking_id) :
    findBooking (updateBooking l b.booking_id (fun _ => b)) b.booking_id = some b := by
  induction l with
  | nil => simp at h
  | cons y ys ih =>
    rw [updateBooking_cons]
    by_cases hy : y.booking_id = b.booking_id
    · rw [if_pos hy, findBooking_cons, if_pos rfl]
    · rw [if_neg hy, findBooking_cons, if_neg hy]
      apply ih
      rcases h with ⟨x, hx, hxid⟩
      rcases List.mem_cons.mp hx with rfl | hx2
      · exact absurd hxid hy
      · exact ⟨x, hx2, hxid⟩

theorem findBooking_dictInsert {l : List Booking} (b : Booking) :
    findBooking (dictInsertBooking l b) b.booking_id = some b := by
  unfold dictInsertBooking
  by_cases h : l.any (fun x => x.booking_id == b.booking_id) = true
  · rw [if_pos h]
    apply findBooking_updateBooking_const
    rcases List.any_eq_true.mp h with ⟨x, hxl, hx⟩
    exact ⟨x, hxl, by simpa using hx⟩
  · rw [if_neg h]
    apply findBooking_append_right
    intro x hx hxb
    exact h (List.any_eq_true.mpr ⟨x, hx, by simpa using hxb⟩)

/-! ### Branch characterizations of the operations -/

theorem book_ticket_no_trip {s : RSState} {nm : String} {a t k : Int}
    (hf : findTrip s.trips t = none) :
    Console.book_ticket s nm a t k = ((none, ["Invalid trip ID."]), s) := by
  unfold Console.book_ticket
  simp only [hf]

theorem book_ticket_bad_count {s : RSState} {nm : String} {a t k : Int} {trip : Trip}
    (hf : findTrip s.trips t = some trip) (hk : k ≤ 0) :
    Console.book_ticket s nm a t k =
      ((none, ["Number of seats must be at least 1."]), s) := by
  unfold Console.book_ticket
  simp only [hf]
  rw [if_pos hk]

theorem book_ticket_insufficient {s : RSState} {nm : String} {a t k : Int} {trip : Trip}
    (hf : findTrip s.trips t = some trip) (hk : ¬ k ≤ 0)
    (hav : trip.seats_available < k) :
    Console.book_ticket s nm a t k =
      ((none, ["Only " ++ toString trip.seats_available ++
        " seats available on this trip. Requested: " ++ toString k]), s) := by
  unfold Console.book_ticket
  simp only [hf]
  rw [if_neg hk, if_pos hav]

theorem book_ticket_success {s : RSState} {nm : String} {a t k : Int} {trip : Trip}
    (hf : findTrip s.trips t = some trip) (hk : ¬ k ≤ 0)
    (hav : ¬ trip.seats_available < k) :
    Console.book_ticket s nm a t k =
      ((some { booking_id := s.next_booking_id, passenger_name := nm,
               passenger_age := a, trip_id := t, num_seats := k,
               total_fare := k * trip.price_per_seat, status := "CONFIRMED" }, []),
        { s with
          bookings := dictInsertBooking s.bookings
            { booking_id := s.next_booking_id, passenger_name := nm,
              passenger_age := a, trip_id := t, num_seats := k,
              total_fare := k * trip.price_per_seat, status := "CONFIRMED" },
          next_booking_id := s.next_booking_id + 1,
          trips := updateTrip s.trips t
            (fun x => { x with seats_available := x.seats_available - k }) }) := by
  unfold Console.book_ticket
  simp only [hf]
  rw [if_neg hk, if_neg hav]

theorem cancel_booking_not_found {s : RSState} {bid : Int}
    (hf : findBooking s.bookings bid = none) :
    Console.cancel_booking s bid = ((false, ["Invalid booking ID."]), s) := by
  unfold Console.cancel_booking
  simp only [hf]

theorem cancel_booking_already {s : RSState} {bid : Int} {b : Booking}
    (hf : findBooking s.bookings bid = some b) (hst : b.status = "CANCELLED") :
    Console.cancel_booking s bid = ((false, ["Booking is already cancelled."]), s) := by
  unfold Console.cancel_booking
  simp only [hf]
  rw [if_pos hst]

theorem cancel_booking_success {s : RSState} {bid : Int} {b : Booking}
    (hf : findBooking s.bookings bid = some b) (hst : ¬ b.status = "CANCELLED") :
    Console.cancel_booking s bid =
      ((true, []),
        { s with
          trips :=
            match findTrip s.trips b.trip_id with
            | some _ => updateTrip s.trips b.trip_id
                (fun t => { t with seats_available := t.seats_available + b.num_seats })
            | none => s.trips,
          bookings := updateBooking s.bookings bid
            (fun x => { x with status := "CANCELLED" }) }) := by
  unfold Console.cancel_booking
  simp only [hf]
  rw [if_neg hst]

theorem web_book_no_trip {s : RSState} {nm : String} {a t k : Int}
    (hf : findTrip s.trips t = none) :
    Web.book_ticket s nm a t k = (none, s) := by
  unfold Web.book_ticket
  simp only [hf]

theorem web_book_guard {s : RSState} {nm : String} {a t k : Int} {trip : Trip}
    (hf : findTrip s.trips t = some trip)
    (hg : k ≤ 0 ∨ trip.seats_available < k) :
    Web.book_ticket s nm a t k = (none, s) := by
  unfold Web.book_ticket
  simp only [hf]
  rw [if_pos hg]

theorem web_book_success {s : RSState} {nm : String} {a t k : Int} {trip : Trip}
    (hf : findTrip s.trips t = some trip)
    (hg : ¬ (k ≤ 0 ∨ trip.seats_available < k)) :
    Web.book_ticket s nm a t k =
      (some { booking_id := s.next_booking_id, passenger_name := nm,
              passenger_age := a, trip_id := trip.trip_id, num_seats := k,
              total_fare := k * trip.price_per_seat, status := "CONFIRMED" },
        { s with
          bookings := dictInsertBooking s.bookings
            { booking_id := s.next_booking_id, passenger_name := nm,
              passenger_age := a, trip_id := trip.trip_id, num_seats := k,
              total_fare := k * trip.price_per_seat, status := "CONFIRMED" },
          next_booking_id := s.next_booking_id + 1,
          trips := updateTrip s.trips trip.trip_id
            (fun x => { x with seats_available := x.seats_available - k }) }) := by
  unfold Web.book_ticket
  simp only [hf]
  rw [if_neg hg]

theorem web_cancel_not_found {s : RSState} {bid : Int}
    (hf : findBooking s.bookings bid = none) :
    Web.cancel_booking s bid = (false, s) := by
  unfold Web.cancel_booking
  simp only [hf]

theorem web_cancel_already {s : RSState} {bid : Int} {b : Booking}
    (hf : findBooking s.bookings bid = some b) (hst : b.status = "CANCELLED") :
    Web.cancel_booking s bid = (false, s) := by
  unfold Web.cancel_booking
  simp only [hf]
  rw [if_pos hst]

theorem web_cancel_success {s : RSState} {bid : Int} {b : Booking}
    (hf : findBooking s.bookings bid = some b) (hst : ¬ b.status = "CANCELLED") :
    Web.cancel_booking s bid =
      (true,
        { s with
          trips :=
            match findTrip s.trips b.trip_id with
            | some _ => updateTrip s.trips b.trip_id
                (fun t => { t with seats_available := t.seats_available + b.num_seats })
            | none => s.trips,
          bookings := updateBooking s.bookings bid
            (fun x => { x with status := "CANCELLED" }) }) := by
  unfold Web.cancel_booking
  simp only [hf]
  rw [if_neg hst]

/-! ### Confirmed-seat sums -/

theorem confirmedSeats_append (l : List Booking) (b : Booking) (tid : Int) :
    confirmedSeats (l ++ [b]) tid =
      confirmedSeats l tid +
        (if b.trip_id = tid ∧ b.status = "CONFIRMED" then b.num_seats else 0) := by
  induction l with
  | nil => simp [confirmedSeats]
  | cons x xs ih => simp [confirmedSeats, ih, add_assoc]

theorem confirmedSeats_update {l : List Booking} {bid tid : Int}
    {f : Booking → Booking} {b : Booking}
    (hn : (l.map Booking.booking_id).Nodup) (hb : b ∈ l) (hid : b.booking_id = bid) :
    confirmedSeats (updateBooking l bid f) tid +
      (if b.trip_id = tid ∧ b.status = "CONFIRMED" then b.num_seats else 0) =
    confirmedSeats l tid +
      (if (f b).trip_id = tid ∧ (f b).status = "CONFIRMED" then (f b).num_seats else 0) := by
  induction l with
  | nil => simp at hb
  | cons x xs ih =>
    rw [updateBooking_cons]
    simp only [List.map_cons, List.nodup_cons] at hn
    by_cases hx : x.booking_id = bid
    · have hbx : b = x := by
        rcases List.mem_cons.mp hb with h | hbxs
        · exact h
        · exact absurd (List.mem_map.mpr ⟨b, hbxs, by rw [hid, ← hx]⟩) hn.1
      subst hbx
      rw [if_pos hx,
        updateBooking_of_no_key f (fun y hy hyid => hn.1
          (List.mem_map.mpr ⟨y, hy, by rw [hyid, ← hx]⟩))]
      simp only [confirmedSeats]
      omega
    · have hbxs : b ∈ xs := by
        rcases List.mem_cons.mp hb with h | hbxs
        · exact absurd (h ▸ hid) hx
        · exact hbxs
      rw [if_neg hx]
      simp only [confirmedSeats]
      have := ih hn.2 hbxs
      omega

/-! ### Preservation of the state invariant -/

theorem book_preserves_inv (s : RSState) (nm : String) (a t k : Int)
    (h : RSInv s) : RSInv (Console.book_ticket s nm a t k).2 := by
  obtain ⟨h1, h2, h3, h4, h5, h6⟩ := h
  cases hf : findTrip s.trips t with
  | none => rw [book_ticket_no_trip hf]; exact ⟨h1, h2, h3, h4, h5, h6⟩
  | some trip =>
    by_cases hk : k ≤ 0
    · rw [book_ticket_bad_count hf hk]; exact ⟨h1, h2, h3, h4, h5, h6⟩
    · by_cases hav : trip.seats_available < k
      · rw [book_ticket_insufficient hf hk hav]; exact ⟨h1, h2, h3, h4, h5, h6⟩
      · rw [book_ticket_success hf hk hav]
        dsimp only
        obtain ⟨htm, htid⟩ := findTrip_prop hf
        have hfresh : ∀ x ∈ s.bookings, ¬ x.booking_id = s.next_booking_id :=
          fun x hx heq => absurd heq (by have := h3 x hx; omega)
        rw [dictInsertBooking_fresh hfresh]
        have hids : (updateTrip s.trips t
            (fun x => { x with seats_available := x.seats_available - k })).map Trip.trip_id
            = s.trips.map Trip.trip_id := updateTrip_map_trip_id (fun _ => rfl)
        refine ⟨?_, ?_, ?_, ?_, ?_, ?_⟩
        · simpa [hids] using h1
        · simp only [List.map_append, List.map_cons, List.map_nil]
          rw [List.nodup_append]
          refine ⟨h2, List.nodup_singleton _, ?_⟩
          intro x hx hx1
          simp only [List.mem_singleton] at hx1
          rcases List.mem_map.mp hx with ⟨b, hbl, hbid⟩
          have := h3 b hbl
          omega
        · intro b hb
          rcases List.mem_append.mp hb with hb | hb
          · have := h3 b hb; dsimp only; omega
          · simp only [List.mem_singleton] at hb
            subst hb; dsimp only; omega
        · intro b hb
          rw [hids]
          rcases List.mem_append.mp hb with hb | hb
          · exact h4 b hb
          · simp only [List.mem_singleton] at hb
            subst hb
            exact List.mem_map.mpr ⟨trip, htm, htid⟩
        · intro b hb
          rcases List.mem_append.mp hb with hb | hb
          · exact h5 b hb
          · simp only [List.mem_singleton] at hb
            subst hb; left; rfl
        · intro t' ht'
          rcases mem_updateTrip ht' with ⟨t0, ht0, ht0id, rfl⟩ | ⟨ht'mem, ht'id⟩
          · dsimp only
            rw [confirmedSeats_append]
            dsimp only
            rw [if_pos (And.intro ht0id.symm rfl)]
            have := h6 t0 ht0
            omega
          · rw [confirmedSeats_append]
            dsimp only
            rw [if_neg (fun hx => ht'id hx.1.symm)]
            have := h6 t' ht'mem
            omega

theorem cancel_preserves_inv (s : RSState) (bid : Int)
    (h : RSInv s) : RSInv (Console.cancel_booking s bid).2 := by
  obtain ⟨h1, h2, h3, h4, h5, h6⟩ := h
  cases hf : findBooking s.bookings bid with
  | none => rw [cancel_booking_not_found hf]; exact ⟨h1, h2, h3, h4, h5, h6⟩
  | some b =>
    by_cases hst : b.status = "CANCELLED"
    · rw [cancel_booking_already hf hst]; exact ⟨h1, h2, h3, h4, h5, h6⟩
    · rw [cancel_booking_success hf hst]
      obtain ⟨hbm, hbid⟩ := findBooking_prop hf
      have hconf : b.status = "CONFIRMED" := (h5 b hbm).resolve_right hst
      obtain ⟨tr, htr, htrid⟩ := findTrip_isSome_of_mem (h4 b hbm)
      rw [htr]
      dsimp only
      have hids : (updateTrip s.trips b.trip_id
          (fun x => { x with seats_available := x.seats_available + b.num_seats })).map
            Trip.trip_id = s.trips.map Trip.trip_id := updateTrip_map_trip_id (fun _ => rfl)
      have hbids : (updateBooking s.bookings bid
          (fun x => { x with status := "CANCELLED" })).map Booking.booking_id
            = s.bookings.map Booking.booking_id := updateBooking_map_booking_id (fun _ => rfl)
      refine ⟨?_, ?_, ?_, ?_, ?_, ?_⟩
      · simpa [hids] using h1
      · simpa [hbids] using h2
      · intro b' hb'
        rcases mem_updateBooking hb' with ⟨b0, hb0, _, rfl⟩ | ⟨hb'mem, _⟩
        · exact h3 b0 hb0
        · exact h3 b' hb'mem
      · intro b' hb'
        rw [hids]
        rcases mem_updateBooking hb' with ⟨b0, hb0, _, rfl⟩ | ⟨hb'mem, _⟩
        · exact h4 b0 hb0
        · exact h4 b' hb'mem
      · intro b' hb'
        rcases mem_updateBooking hb' with ⟨b0, hb0, _, rfl⟩ | ⟨hb'mem, _⟩
        · right; rfl
        · exact h5 b' hb'mem
      · intro t' ht'
        dsimp only at ht' ⊢
        rcases mem_updateTrip ht' with ⟨t0, ht0, ht0id, rfl⟩ | ⟨ht'mem, ht'id⟩
        · have hsum := @confirmedSeats_update s.bookings bid t0.trip_id
            (fun x => { x with status := "CANCELLED" }) b h2 hbm hbid
          dsimp only at hsum ⊢
          have hne : ¬ (b.trip_id = t0.trip_id ∧ ("CANCELLED" : String) = "CONFIRMED") :=
            fun hx => absurd hx.2 (by decide)
          rw [if_neg hne, if_pos (And.intro ht0id.symm hconf)] at hsum
          have := h6 t0 ht0
          omega
        · have hsum := @confirmedSeats_update s.bookings bid t'.trip_id
            (fun x => { x with status := "CANCELLED" }) b h2 hbm hbid
          dsimp only at hsum
          have hne1 : ¬ (b.trip_id = t'.trip_id ∧ b.status = "CONFIRMED") :=
            fun hx => ht'id hx.1.symm
          have hne2 : ¬ (b.trip_id = t'.trip_id ∧ ("CANCELLED" : String) = "CONFIRMED") :=
            fun hx => ht'id hx.1.symm
          rw [if_neg hne1, if_neg hne2] at hsum
          have := h6 t' ht'mem
          omega

theorem applyOp_preserves_inv (s : RSState) (op : Op) (h : RSInv s) :
    RSInv (applyOp s op) := by
  cases op with
  | book nm a t k => exact book_preserves_inv s nm a t k h
  | cancel bid => exact cancel_preserves_inv s bid h

theorem run_preserves_inv (ops : List Op) (s : RSState) (h : RSInv s) :
    RSInv (run s ops) := by
  induction ops generalizing s with
  | nil => exact h
  | cons op ops ih => exact ih _ (applyOp_preserves_inv s op h)

theorem inv_consoleInit : RSInv consoleInit := by decide

/-! ### Further dictionary lemmas -/

theorem self_mem_dictInsertBooking (l : List Booking) (b : Booking) :
    b ∈ dictInsertBooking l b := by
  unfold dictInsertBooking
  by_cases h : l.any (fun x => x.booking_id == b.booking_id) = true
  · rw [if_pos h]
    rcases List.any_eq_true.mp h with ⟨x, hx, hxe⟩
    unfold updateBooking
    refine List.mem_map.mpr ⟨x, hx, ?_⟩
    rw [if_pos hxe]
  · rw [if_neg h]
    simp

theorem findBooking_updateBooking {l : List Booking} (bid : Int) (f : Booking → Booking)
    (hf : ∀ b, (f b).booking_id = b.booking_id) :
    findBooking (updateBooking l bid f) bid = (findBooking l bid).map f := by
  induction l with
  | nil => rfl
  | cons x xs ih =>
    rw [updateBooking_cons]
    by_cases h : x.booking_id = bid
    · rw [findBooking_cons, findBooking_cons]
      simp [h, hf]
    · rw [findBooking_cons, findBooking_cons]
      simp [h, ih]

/-! ### The claims -/

/-- C1: seat conservation.  Starting from the seeded initial state, after any
sequence of `book_ticket` and `cancel_booking` operations, every trip's
`seats_available` plus the summed `num_seats` of the CONFIRMED bookings
referencing it equals its `total_seats`. -/
theorem seat_conservation_from_seeded (ops : List Op) :
    Conserves (run consoleInit ops) :=
  (run_preserves_inv ops consoleInit inv_consoleInit).2.2.2.2.2

/-- C6: `search_trips` returns exactly the trips whose source and destination
match the arguments ignoring letter case and whose date matches exactly (it
is a pure filter, so an empty result — never an error — comes back when
nothing matches); searching "bhopal"/"indore"/"2025-12-10" on the seeded
catalog returns both seeded Bhopal→Indore trips. -/
theorem search_trips_characterization :
    (∀ (s : RSState) (src dst d : String) (t : Trip),
        t ∈ Console.search_trips s src dst d ↔
          t ∈ s.trips ∧ pyLower t.source = pyLower src ∧
            pyLower t.destination = pyLower dst ∧ t.date = d) ∧
    (∀ (s : RSState) (src dst d : String),
        (∀ t ∈ s.trips, ¬ (pyLower t.source = pyLower src ∧
          pyLower t.destination = pyLower dst ∧ t.date = d)) →
        Console.search_trips s src dst d = []) ∧
    Console.search_trips consoleInit "bhopal" "indore" "2025-12-10" = [trip1, trip2] := by
  have hmem : ∀ (s : RSState) (src dst d : String) (t : Trip),
      t ∈ Console.search_trips s src dst d ↔
        t ∈ s.trips ∧ pyLower t.source = pyLower src ∧
          pyLower t.destination = pyLower dst ∧ t.date = d := by
    intro s src dst d t
    unfold Console.search_trips
    rw [List.mem_filter]
    simp only [Bool.and_eq_true, beq_iff_eq]
    tauto
  refine ⟨hmem, ?_, by decide⟩
  intro s src dst d hnone
  rw [List.eq_nil_iff_forall_not_mem]
  intro t ht
  rcases (hmem s src dst d t).mp ht with ⟨htm, hrest⟩
  exact hnone t htm hrest

/-- C7: a successful `book_ticket` returns a booking carrying the next
sequential booking id, the passenger data, the trip id, `num_seats` times the
trip's price as `total_fare`, and status CONFIRMED; it prints nothing, adds
the booking to the ledger, advances the booking-id counter and decrements the
trip's `seats_available` by exactly `num_seats`. -/
theorem book_ticket_success_contract (s : RSState) (nm : String) (a t k : Int)
    (trip : Trip) (hf : findTrip s.trips t = some trip) (h0 : 0 < k)
    (hle : k ≤ trip.seats_available) :
    (Console.book_ticket s nm a t k).1.1 =
      some { booking_id := s.next_booking_id, passenger_name := nm,
             passenger_age := a, trip_id := t, num_seats := k,
             total_fare := k * trip.price_per_seat, status := "CONFIRMED" } ∧
    (Console.book_ticket s nm a t k).1.2 = [] ∧
    ({ booking_id := s.next_booking_id, passenger_name := nm,
       passenger_age := a, trip_id := t, num_seats := k,
       total_fare := k * trip.price_per_seat, status := "CONFIRMED" } : Booking)
      ∈ (Console.book_ticket s nm a t k).2.bookings ∧
    (Console.book_ticket s nm a t k).2.next_booking_id = s.next_booking_id + 1 ∧
    availOf (Console.book_ticket s nm a t k).2 t = some (trip.seats_available - k) := by
  have hk : ¬ k ≤ 0 := by omega
  have hav : ¬ trip.seats_available < k := by omega
  rw [book_ticket_success hf hk hav]
  dsimp only
  refine ⟨rfl, rfl, self_mem_dictInsertBooking _ _, rfl, ?_⟩
  unfold availOf
  dsimp only
  rw [findTrip_updateTrip t
    (fun x => { x with seats_available := x.seats_available - k }) (fun _ => rfl), hf]
  rfl

/-- C7 witness: the spec's scenario. `bookTicket("Asha", 30, 1, 5)` on the
seeded catalog returns booking 1 with total fare 2250 and status CONFIRMED,
stores it, and leaves 35 seats on trip 1. -/
theorem book_ticket_success_scenario :
    (Console.book_ticket consoleInit "Asha" 30 1 5).1.1 = some bk0 ∧
    (Console.book_ticket consoleInit "Asha" 30 1 5).1.2 = [] ∧
    bk0 ∈ (Console.book_ticket consoleInit "Asha" 30 1 5).2.bookings ∧
    (Console.book_ticket consoleInit "Asha" 30 1 5).2.next_booking_id = 2 ∧
    availOf (Console.book_ticket consoleInit "Asha" 30 1 5).2 1 = some 35 :=
  book_ticket_success_contract consoleInit "Asha" 30 1 5 trip1 rfl (by decide) (by decide)

/-- C10: the availability comparison is strict, so booking exactly the
remaining seats of a trip with at least one free seat succeeds and leaves the
trip with zero seats available, in both variants. -/
theorem book_exact_boundary (s : RSState) (nm : String) (a t : Int) (trip : Trip)
    (hf : findTrip s.trips t = some trip) (hpos : 0 < trip.seats_available) :
    ((Console.book_ticket s nm a t trip.seats_available).1.1).isSome = true ∧
    availOf (Console.book_ticket s nm a t trip.seats_available).2 t = some 0 ∧
    ((Web.book_ticket s nm a t trip.seats_available).1).isSome = true ∧
    availOf (Web.book_ticket s nm a t trip.seats_available).2 t = some 0 := by
  have hk : ¬ trip.seats_available ≤ 0 := by omega
  have hav : ¬ trip.seats_available < trip.seats_available := by omega
  have hg : ¬ (trip.seats_available ≤ 0 ∨ trip.seats_available < trip.seats_available) := by
    omega
  have htid : trip.trip_id = t := (findTrip_prop hf).2
  rw [book_ticket_success hf hk hav, web_book_success hf hg, htid]
  dsimp only
  unfold availOf
  dsimp only
  rw [findTrip_updateTrip t
    (fun x => { x with seats_available := x.seats_available - trip.seats_available })
    (fun _ => rfl), hf]
  refine ⟨rfl, ?_, rfl, ?_⟩ <;> simp

/-- C10 witness: booking all 40 free seats of seeded trip 1 succeeds and
leaves 0 seats, in both variants. -/
theorem book_exact_boundary_witness :
    ((Console.book_ticket consoleInit "Asha" 30 1 trip1.seats_available).1.1).isSome = true ∧
    availOf (Console.book_ticket consoleInit "Asha" 30 1 trip1.seats_available).2 1 = some 0 ∧
    ((Web.book_ticket consoleInit "Asha" 30 1 trip1.seats_available).1).isSome = true ∧
    availOf (Web.book_ticket consoleInit "Asha" 30 1 trip1.seats_available).2 1 = some 0 :=
  book_exact_boundary consoleInit "Asha" 30 1 trip1 rfl (by decide)

/-- C2: booking then immediately cancelling the returned booking succeeds,
and the whole trips table — in particular the referenced trip's
`seats_available` — returns to its pre-booking value. -/
theorem book_then_cancel_roundtrip (s : RSState) (nm : String) (a t k : Int)
    (b : Booking) (hb : (Console.book_ticket s nm a t k).1.1 = some b) :
    (Console.cancel_booking (Console.book_ticket s nm a t k).2 b.booking_id).1.1 = true ∧
    (Console.cancel_booking (Console.book_ticket s nm a t k).2 b.booking_id).2.trips
      = s.trips := by
  cases hf : findTrip s.trips t with
  | none =>
    rw [book_ticket_no_trip hf] at hb
    exact absurd hb (by simp)
  | some trip =>
    by_cases hk : k ≤ 0
    · rw [book_ticket_bad_count hf hk] at hb
      exact absurd hb (by simp)
    · by_cases hav : trip.seats_available < k
      · rw [book_ticket_insufficient hf hk hav] at hb
        exact absurd hb (by simp)
      · rw [book_ticket_success hf hk hav] at hb ⊢
        dsimp only at hb ⊢
        rw [Option.some_inj] at hb
        subst hb
        dsimp only
        have hf2 := findBooking_dictInsert (l := s.bookings)
          { booking_id := s.next_booking_id, passenger_name := nm,
            passenger_age := a, trip_id := t, num_seats := k,
            total_fare := k * trip.price_per_seat, status := "CONFIRMED" }
        rw [cancel_booking_success hf2 (by simp)]
        dsimp only
        have hft : findTrip (updateTrip s.trips t
            (fun x => { x with seats_available := x.seats_available - k })) t
            = some { trip with seats_available := trip.seats_available - k } := by
          rw [findTrip_updateTrip t
            (fun x => { x with seats_available := x.seats_available - k })
            (fun _ => rfl), hf]
          rfl
        rw [hft]
        dsimp only
        refine ⟨rfl, ?_⟩
        rw [updateTrip_updateTrip t
          (fun x => { x with seats_available := x.seats_available - k })
          (fun x => { x with seats_available := x.seats_available + k })
          (fun _ => rfl) ?_]
        intro x _
        dsimp only
        cases x
        simp only [Trip.mk.injEq, and_true, true_and]
        omega

/-- C2 witness: the spec's scenario: book 5 seats on seeded trip 1, then
cancel the returned booking (id 1); the cancellation succeeds and the trips
table is back to the seeded one. -/
theorem book_then_cancel_roundtrip_scenario :
    (Console.cancel_booking (Console.book_ticket consoleInit "Asha" 30 1 5).2
      bk0.booking_id).1.1 = true ∧
    (Console.cancel_booking (Console.book_ticket consoleInit "Asha" 30 1 5).2
      bk0.booking_id).2.trips = consoleInit.trips :=
  book_then_cancel_roundtrip consoleInit "Asha" 30 1 5 bk0 (by decide)

/-- C5: cancelling a booking whose status is already CANCELLED fails with
the already-cancelled message and mutates nothing, and a second
`cancel_booking` on any id is always a no-op: the state after the second
call equals the state after the first. -/
theorem cancel_already_cancelled_no_op (s : RSState) (bid : Int) :
    (∀ b, findBooking s.bookings bid = some b → b.status = "CANCELLED" →
      Console.cancel_booking s bid = ((false, ["Booking is already cancelled."]), s)) ∧
    (Console.cancel_booking (Console.cancel_booking s bid).2 bid).2
      = (Console.cancel_booking s bid).2 := by
  refine ⟨fun b hf hst => cancel_booking_already hf hst, ?_⟩
  cases hf : findBooking s.bookings bid with
  | none =>
    rw [cancel_booking_not_found hf]
    dsimp only
    rw [cancel_booking_not_found hf]
  | some b =>
    by_cases hst : b.status = "CANCELLED"
    · rw [cancel_booking_already hf hst]
      dsimp only
      rw [cancel_booking_already hf hst]
    · rw [cancel_booking_success hf hst]
      dsimp only
      have hf2 : findBooking (updateBooking s.bookings bid
          (fun x => { x with status := "CANCELLED" })) bid
          = some { b with status := "CANCELLED" } := by
        rw [findBooking_updateBooking bid
          (fun x => { x with status := "CANCELLED" }) (fun _ => rfl), hf]
        rfl
      rw [cancel_booking_already hf2 rfl]

/-- C4 counterexample: `book_ticket` with numSeats = 0 and an unresolvable
trip id fails with the trip-not-found message, not the invalid-seat-count
message — the trip lookup runs before the seat-count check, so the claim
"fails with InvalidSeatCount regardless of the trip's state" is false when
the trip id does not resolve. -/
theorem zero_seats_unknown_trip_counterexample :
    (Console.book_ticket consoleInit "Asha" 30 999 0).1.2 = ["Invalid trip ID."] ∧
    (["Invalid trip ID."] : List String) ≠ ["Number of seats must be at least 1."] := by
  exact ⟨rfl, by decide⟩

/-- C4 (amended): `book_ticket` with numSeats ≤ 0 always fails returning
None with nothing mutated, in both variants; the reported failure is the
invalid-seat-count one when the trip id resolves, and the trip-not-found one
when it does not. -/
theorem nonpositive_seats_always_fail (s : RSState) (nm : String) (a t k : Int)
    (hk : k ≤ 0) :
    (Console.book_ticket s nm a t k).1.1 = none ∧
    (Console.book_ticket s nm a t k).2 = s ∧
    (∀ trip, findTrip s.trips t = some trip →
      (Console.book_ticket s nm a t k).1.2 = ["Number of seats must be at least 1."]) ∧
    (findTrip s.trips t = none →
      (Console.book_ticket s nm a t k).1.2 = ["Invalid trip ID."]) ∧
    (Web.book_ticket s nm a t k).1 = none ∧
    (Web.book_ticket s nm a t k).2 = s := by
  cases hf : findTrip s.trips t with
  | none =>
    rw [book_ticket_no_trip hf, web_book_no_trip hf]
    refine ⟨rfl, rfl, ?_, fun _ => rfl, rfl, rfl⟩
    intro trip htrip
    exact Option.noConfusion htrip
  | some trip =>
    rw [book_ticket_bad_count hf hk, web_book_guard hf (Or.inl hk)]
    refine ⟨rfl, rfl, fun _ _ => rfl, ?_, rfl, rfl⟩
    intro h
    exact Option.noConfusion h

/-- C4 witness: booking 0 seats on seeded trip 1 fails with the
invalid-seat-count message, returns None in both variants and leaves the
seeded state untouched. -/
theorem nonpositive_seats_always_fail_witness :
    (Console.book_ticket consoleInit "Asha" 30 1 0).1.1 = none ∧
    (Console.book_ticket consoleInit "Asha" 30 1 0).2 = consoleInit ∧
    (∀ trip, findTrip consoleInit.trips 1 = some trip →
      (Console.book_ticket consoleInit "Asha" 30 1 0).1.2
        = ["Number of seats must be at least 1."]) ∧
    (findTrip consoleInit.trips 1 = none →
      (Console.book_ticket consoleInit "Asha" 30 1 0).1.2 = ["Invalid trip ID."]) ∧
    (Web.book_ticket consoleInit "Asha" 30 1 0).1 = none ∧
    (Web.book_ticket consoleInit "Asha" 30 1 0).2 = consoleInit :=
  nonpositive_seats_always_fail consoleInit "Asha" 30 1 0 (by decide)

/-- The seeded web state after booking 5 seats on trip 1: its trip 1 has 35
seats available, against 40 in the seeded state. -/
def s35 : RSState := (Web.book_ticket webInit "Asha" 30 1 5).2

/-- C3 counterexample: the value an insufficient-seats booking failure
returns to the caller is a bare None that carries no seat count: two states
whose trip 1 availabilities differ (40 and 35) yield the identical returned
value, so no reading of the returned failure value can report the
actually-available count. -/
theorem insufficient_failure_reports_no_count :
    ¬ ∃ rep : Option Booking → Int, ∀ (s : RSState) (t : Trip),
        findTrip s.trips 1 = some t → t.seats_available < 50 →
        rep (Web.book_ticket s "Asha" 30 1 50).1 = t.seats_available := by
  rintro ⟨rep, hrep⟩
  have h1 := hrep webInit trip1 rfl (by decide)
  have h2 := hrep s35 { trip1 with seats_available := 35 } rfl (by decide)
  have e1 : (Web.book_ticket webInit "Asha" 30 1 50).1 = none := rfl
  have e2 : (Web.book_ticket s35 "Asha" 30 1 50).1 = none := rfl
  rw [e1] at h1
  rw [e2] at h2
  exact absurd (h1.symm.trans h2) (by decide)

/-- C3 (amended): requesting more seats than available fails with the ledger
left unchanged in both variants; the console variant prints the
insufficient-seats message carrying the actually-available count, while the
value returned to the caller is a bare None in both variants. -/
theorem insufficient_seats_reject (s : RSState) (nm : String) (a t k : Int)
    (trip : Trip) (hf : findTrip s.trips t = some trip) (h0 : 0 < k)
    (hav : trip.seats_available < k) :
    Console.book_ticket s nm a t k =
      ((none, ["Only " ++ toString trip.seats_available ++
        " seats available on this trip. Requested: " ++ toString k]), s) ∧
    Web.book_ticket s nm a t k = (none, s) :=
  ⟨book_ticket_insufficient hf (by omega) hav, web_book_guard hf (Or.inr hav)⟩

/-- C3 witness: requesting 50 seats on seeded trip 1 (40 available) fails in
both variants with no state change; the console prints "Only 40 seats
available on this trip. Requested: 50". -/
theorem insufficient_seats_reject_witness :
    Console.book_ticket consoleInit "Asha" 30 1 50 =
      ((none, ["Only " ++ toString trip1.seats_available ++
        " seats available on this trip. Requested: " ++ toString (50 : Int)]),
        consoleInit) ∧
    Web.book_ticket consoleInit "Asha" 30 1 50 = (none, consoleInit) :=
  insufficient_seats_reject consoleInit "Asha" 30 1 50 trip1 rfl (by decide) (by decide)

/-- C8 counterexample: the web variant's book_ticket on the raw form strings
raises ValueError (modeled as `Except.error`) instead of returning a failure
value when its trip_id argument is not an integer string. -/
theorem web_raw_book_raises :
    Web.book_ticket_raw webInit "Asha" "30" "abc" "1" = Except.error "ValueError" := rfl

/-- C8 (amended): the web variant's book_ticket and cancel_booking return a
value — they never raise — whenever the numeric arguments are integer
strings, and the returned value is exactly that of the integer-argument
operation; a non-integer string makes the int() conversion raise. -/
theorem web_raw_ops_ok_on_integer_strings (s : RSState)
    (nm age tid seats bidS : String) (a t k bi : Int)
    (ha : pyInt? age = some a) (ht : pyInt? tid = some t)
    (hk : pyInt? seats = some k) (hb : pyInt? bidS = some bi) :
    Web.book_ticket_raw s nm age tid seats = Except.ok (Web.book_ticket s nm a t k) ∧
    Web.cancel_booking_raw s bidS = Except.ok (Web.cancel_booking s bi) := by
  constructor
  · unfold Web.book_ticket_raw
    simp only [ht]
    cases hf : findTrip s.trips t with
    | none =>
      simp only [hf]
      rw [web_book_no_trip hf]
    | some trip =>
      simp only [hf, hk]
      by_cases hg : k ≤ 0 ∨ trip.seats_available < k
      · rw [if_pos hg, web_book_guard hf hg]
      · rw [if_neg hg]
        simp only [ha]
        rw [web_book_success hf hg]
  · unfold Web.cancel_booking_raw
    simp only [hb]

/-- C8 witness: on the integer strings of the spec's scenario the raw web
operations return values equal to the integer-argument operations. -/
theorem web_raw_ops_ok_witness :
    Web.book_ticket_raw webInit "Asha" "30" "1" "5"
      = Except.ok (Web.book_ticket webInit "Asha" 30 1 5) ∧
    Web.cancel_booking_raw webInit "1" = Except.ok (Web.cancel_booking webInit 1) :=
  web_raw_ops_ok_on_integer_strings webInit "Asha" "30" "1" "5" "1" 30 1 5 1
    rfl rfl rfl rfl

/-- Each operation of the shared interface behaves identically in the two
variants: same returned value, same next state. -/
theorem consoleStep_eq_webStep (s : RSState) (op : WOp) :
    consoleStep s op = webStep s op := by
  cases op with
  | listTrips => rfl
  | listBookings => rfl
  | book nm a t k =>
    unfold consoleStep webStep
    dsimp only
    cases hf : findTrip s.trips t with
    | none => rw [book_ticket_no_trip hf, web_book_no_trip hf]
    | some trip =>
      have htid : trip.trip_id = t := (findTrip_prop hf).2
      by_cases hk : k ≤ 0
      · rw [book_ticket_bad_count hf hk, web_book_guard hf (Or.inl hk)]
      · by_cases hav : trip.seats_available < k
        · rw [book_ticket_insufficient hf hk hav, web_book_guard hf (Or.inr hav)]
        · rw [book_ticket_success hf hk hav,
            web_book_success hf (by rw [not_or]; exact ⟨hk, hav⟩), htid]
  | cancel bid =>
    unfold consoleStep webStep
    dsimp only
    cases hf : findBooking s.bookings bid with
    | none => rw [cancel_booking_not_found hf, web_cancel_not_found hf]
    | some b =>
      by_cases hst : b.status = "CANCELLED"
      · rw [cancel_booking_already hf hst, web_cancel_already hf hst]
      · rw [cancel_booking_success hf hst, web_cancel_success hf hst]

theorem consoleRun_eq_webRun (ops : List WOp) (s : RSState) :
    consoleRun s ops = webRun s ops := by
  induction ops generalizing s with
  | nil => rfl
  | cons op ops ih =>
    unfold consoleRun webRun
    dsimp only
    rw [consoleStep_eq_webStep, ih]

/-- C9: the console and web `ReservationSystem`s are behaviorally
equivalent: from their (equal) seeded states, every sequence of shared
operations — listTrips, book_ticket on integers, cancel_booking,
listBookings — produces the same sequence of results and the same final
ledger state in both variants. -/
theorem console_web_equivalent (ops : List WOp) :
    consoleRun consoleInit ops = webRun webInit ops := by
  have h : consoleInit = webInit := rfl
  rw [h, consoleRun_eq_webRun]
